import Mathlib

/-!
Shallow embedding of `src/app.py` (Google Chat webhook card builder).

The Python module assembles a nested card document (header, sections,
widgets) as dictionaries and lists, and posts the JSON payload to a
webhook. Dictionaries with conditionally-present keys are embedded as
Lean structures whose conditionally-present keys are `Option` fields:
a key absent from the Python dict is `none`. Python truthiness on an
`Optional[str]` (`if s:`) is `pyTruthy`: false for `None` and for `""`.

Mutation of `self.card` is embedded as explicit state passing: each
builder method takes the `Message` state and returns the new state,
paired with `Option BuilderError` — `some e` when the Python method
raises, paired with the state the object holds at the moment of the
raise (in `app.py` every raise happens before the single mutating
`append`, so that state is the input state).
-/

set_option autoImplicit false

namespace App

/-- Python truthiness of an `Optional[str]`: `None` and `""` are falsy. -/
def pyTruthy : Option String → Bool
  | none => false
  | some s => !s.isEmpty

/-- Python `o or d` for an `Optional[str]` `o` and a string default `d`:
yields the string in `o` when truthy, otherwise `d` (used for `name or "Button"`). -/
def pyOrStr (o : Option String) (d : String) : String :=
  match o with
  | none => d
  | some s => if s.isEmpty then d else s

/-- JSON `{"openLink": {"url": ...}}` innermost object. -/
structure OpenLink where
  url : String
deriving DecidableEq, Repr

/-- JSON `{"onClick": {"openLink": ...}}` object. -/
structure OnClick where
  openLink : OpenLink
deriving DecidableEq, Repr

/-- The dict built for `textButton` in `add_button` / `add_key_value`. -/
structure TextButton where
  text : String
  onClick : OnClick
deriving DecidableEq, Repr

/-- The dict built for `imageButton` in `add_button`. -/
structure ImageButton where
  name : String
  iconUrl : String
  onClick : OnClick
deriving DecidableEq, Repr

/-- A button dict carries exactly one of the keys `textButton` / `imageButton`. -/
inductive Button where
  | textButton (b : TextButton)
  | imageButton (b : ImageButton)
deriving DecidableEq, Repr

/-- The dict under the `keyValue` widget key, as built by `add_key_value`:
`content` is always present, every other key only conditionally. -/
structure KeyValue where
  content : String
  contentMultiline : Option Bool
  topLabel : Option String
  bottomLabel : Option String
  icon : Option String
  button : Option Button
deriving DecidableEq, Repr

/-- The dict under the `decoratedText` widget key, as built by `add_decorated_text`. -/
structure DecoratedText where
  text : String
  startIcon : Option String
  endIcon : Option String
  onClick : Option OnClick
deriving DecidableEq, Repr

/-- A widget dict, discriminated by its single top-level key. -/
inductive Widget where
  | textParagraph (text : String)
  | image (imageUrl : String) (altText : String)
  | divider
  | keyValue (kv : KeyValue)
  | decoratedText (d : DecoratedText)
  | buttons (bs : List Button)
deriving DecidableEq, Repr

/-- A section dict: `{"widgets": [...]}` plus the `header` key only when
`add_section` was given a truthy header. -/
structure Section where
  header : Option String
  widgets : List Widget
deriving DecidableEq, Repr

/-- The card header dict built in `Message.__init__`. -/
structure CardHeader where
  title : String
  subtitle : String
deriving DecidableEq, Repr

/-- The `self.card` dict: `{"header": ..., "sections": [...]}`. -/
structure Card where
  header : CardHeader
  sections : List Section
deriving DecidableEq, Repr

/-- The `Message` object's state: `self.webhook_url` and `self.card`. -/
structure Message where
  webhook_url : Option String
  card : Card
deriving DecidableEq, Repr

/-- The payload `{"cards": [card]}` returned by `_prepare_msg`. -/
structure Payload where
  cards : List Card
deriving DecidableEq, Repr

/-- The exceptions raised by the builder: `ValueError` in `_resolve_section`
("need at least 1 section"), `IndexError` ("Section index out of range"),
`ValueError` in `add_button` ("requires a URL" / "must define either text or
image_url"), and `WebhookError` in `send`. -/
inductive BuilderError where
  | noSection
  | sectionIndex
  | missingUrl
  | missingButtonContent
  | missingWebhook
deriving DecidableEq, Repr

/-- Embeds `Message.__init__(title, subtitle, webhook_url)`. -/
def Message.init (title subtitle : String) (webhook_url : Option String) : Message :=
  { webhook_url := webhook_url
    card :=
      { header := { title := title, subtitle := subtitle }
        sections := [] } }

/-- Embeds `Message.add_section(header)`: appends `{"widgets": []}` (plus a `header`
key when `header` is truthy) and returns `len(sections) - 1` after the append. -/
def Message.add_section (m : Message) (header : Option String) : Nat × Message :=
  let s : Section := { header := if pyTruthy header then header else none, widgets := [] }
  let newSections := m.card.sections ++ [s]
  (newSections.length - 1, { m with card := { m.card with sections := newSections } })

/-- Embeds `Message._resolve_section(section)`: raises when `sections` is empty;
`None` resolves to the last index; an explicit index raises when out of
`[0, len)` and otherwise resolves to itself. The Python method returns the
section dict by reference; the embedding returns its index, and the caller
appends at that index. -/
def Message.resolve_section (m : Message) (target : Option Int) : Except BuilderError Nat :=
  if m.card.sections.isEmpty then
    .error .noSection
  else
    match target with
    | none => .ok (m.card.sections.length - 1)
    | some i =>
      if i < 0 || (m.card.sections.length : Int) ≤ i then .error .sectionIndex
      else .ok i.toNat

/-- Replace the element at index `i` by `f` of itself (out-of-range: no change). -/
def modifyIdx {α : Type} : List α → Nat → (α → α) → List α
  | [], _, _ => []
  | a :: rest, 0, f => f a :: rest
  | a :: rest, Nat.succ j, f => a :: modifyIdx rest j f

/-- The shared tail of every widget builder:
`self._resolve_section(section)["widgets"].append(widget)`. On a raise the
state is returned unchanged (the raise precedes the mutation in the source). -/
def Message.append_widget (m : Message) (target : Option Int) (w : Widget) :
    Message × Option BuilderError :=
  match m.resolve_section target with
  | .error e => (m, some e)
  | .ok i =>
    let newSections := modifyIdx m.card.sections i (fun s => { s with widgets := s.widgets ++ [w] })
    ({ m with card := { m.card with sections := newSections } }, none)

/-- Embeds `Message.add_text(text, section)`. -/
def Message.add_text (m : Message) (text : String) (target : Option Int) :
    Message × Option BuilderError :=
  m.append_widget target (.textParagraph text)

/-- Embeds `Message.add_image(url, alt_text, section)`. -/
def Message.add_image (m : Message) (url alt_text : String) (target : Option Int) :
    Message × Option BuilderError :=
  m.append_widget target (.image url alt_text)

/-- Embeds `Message.add_divider(section)`. -/
def Message.add_divider (m : Message) (target : Option Int) :
    Message × Option BuilderError :=
  m.append_widget target .divider

/-- The `key_value` dict built by `add_key_value` before the append: each
conditional key is present exactly when its guard is truthy; the `button`
key is present exactly when `button_text and button_url` is truthy. -/
def buildKeyValue (top_label : Option String) (content : String)
    (icon bottom_label button_text button_url : Option String)
    (multiline : Bool) : KeyValue :=
  { content := content
    contentMultiline := if multiline then some true else none
    topLabel := if pyTruthy top_label then top_label else none
    bottomLabel := if pyTruthy bottom_label then bottom_label else none
    icon := if pyTruthy icon then icon else none
    button :=
      match button_text, button_url with
      | some bt, some bu =>
        if !bt.isEmpty && !bu.isEmpty then
          some (.textButton
            { text := bt, onClick := { openLink := { url := bu } } })
        else none
      | _, _ => none }

/-- Embeds `Message.add_key_value(top_label, content, icon, bottom_label,
button_text, button_url, section, multiline)`. -/
def Message.add_key_value (m : Message) (top_label : Option String) (content : String)
    (icon bottom_label button_text button_url : Option String)
    (target : Option Int) (multiline : Bool) : Message × Option BuilderError :=
  m.append_widget target
    (.keyValue (buildKeyValue top_label content icon bottom_label button_text button_url multiline))

/-- The `decorated` dict built by `add_decorated_text` before the append. -/
def buildDecorated (text : String) (start_icon end_icon on_click_url : Option String) :
    DecoratedText :=
  { text := text
    startIcon := if pyTruthy start_icon then start_icon else none
    endIcon := if pyTruthy end_icon then end_icon else none
    onClick :=
      match on_click_url with
      | some u => if u.isEmpty then none else some { openLink := { url := u } }
      | none => none }

/-- Embeds `Message.add_decorated_text(text, start_icon, end_icon, on_click_url, section)`. -/
def Message.add_decorated_text (m : Message) (text : String)
    (start_icon end_icon on_click_url : Option String) (target : Option Int) :
    Message × Option BuilderError :=
  m.append_widget target (.decoratedText (buildDecorated text start_icon end_icon on_click_url))

/-- Embeds `Message.add_button(text, url, image_url, name, section)`: raises for a
falsy `url` before anything else; a truthy `text` wins over `image_url`;
neither truthy raises after the url check but before the section resolve. -/
def Message.add_button (m : Message) (text url image_url name : Option String)
    (target : Option Int) : Message × Option BuilderError :=
  if !pyTruthy url then (m, some .missingUrl)
  else
    let u := url.getD ""
    if pyTruthy text then
      m.append_widget target
        (.buttons [.textButton
          { text := text.getD "", onClick := { openLink := { url := u } } }])
    else if pyTruthy image_url then
      m.append_widget target
        (.buttons [.imageButton
          { name := pyOrStr name "Button", iconUrl := image_url.getD ""
            onClick := { openLink := { url := u } } }])
    else (m, some .missingButtonContent)

/-- Embeds `Message._prepare_msg()`: builds `{"cards": [self.card]}` from the
current state. -/
def Message.prepare_msg (m : Message) : Payload :=
  { cards := [m.card] }

/-- Reading a payload previously returned by `_prepare_msg`, after further
mutations. In the source the returned dict is `{"cards": [self.card]}`:
the outer dict and list are fresh, but the single card element is
`self.card` itself, not a copy, so a later read through the returned
payload sees the builder's current card. -/
def Message.observe_payload (current : Message) : Payload :=
  { cards := [current.card] }

/-- Embeds `Message.send(webhook_url)` up to the network boundary: resolves
`webhook_url or self.webhook_url`, raises `WebhookError` when the result
is falsy, and otherwise hands the resolved url and the prepared payload
to the transport (`post`), returning its `(status, body)`. -/
def Message.send (m : Message) (webhook_url : Option String)
    (post : String → Payload → Nat × String) : Except BuilderError (Nat × String) :=
  let url := if pyTruthy webhook_url then webhook_url else m.webhook_url
  match url with
  | none => .error .missingWebhook
  | some u =>
    if u.isEmpty then .error .missingWebhook
    else .ok (post u m.prepare_msg)

/-- Widgets of the section at index `i`, `none` when `i` is out of range. -/
def widgetsAt (m : Message) (i : Nat) : Option (List Widget) :=
  (m.card.sections.get? i).map Section.widgets

theorem modifyIdx_length {α : Type} (l : List α) (i : Nat) (f : α → α) :
    (modifyIdx l i f).length = l.length := by
  induction l generalizing i with
  | nil => rfl
  | cons a rest ih =>
    cases i with
    | zero => rfl
    | succ j => simpa [modifyIdx] using ih j

theorem get?_modifyIdx_self {α : Type} (l : List α) (i : Nat) (f : α → α) (h : i < l.length) :
    (modifyIdx l i f).get? i = (l.get? i).map f := by
  induction l generalizing i with
  | nil => simp at h
  | cons a rest ih =>
    cases i with
    | zero => rfl
    | succ j =>
      have hj : j < rest.length := Nat.lt_of_succ_lt_succ h
      simpa [modifyIdx] using ih j hj

theorem get?_modifyIdx_ne {α : Type} (l : List α) (i j : Nat) (f : α → α) (h : j ≠ i) :
    (modifyIdx l i f).get? j = l.get? j := by
  induction l generalizing i j with
  | nil => rfl
  | cons a rest ih =>
    cases i with
    | zero =>
      cases j with
      | zero => exact absurd rfl h
      | succ k => rfl
    | succ i' =>
      cases j with
      | zero => rfl
      | succ k =>
        have hk : k ≠ i' := fun hki => h (by simp [hki])
        simpa [modifyIdx] using ih i' k hk

theorem resolve_section_nil (m : Message) (target : Option Int)
    (h : m.card.sections = []) : m.resolve_section target = .error .noSection := by
  simp [Message.resolve_section, h]

theorem resolve_section_none (m : Message) (h : m.card.sections ≠ []) :
    m.resolve_section none = .ok (m.card.sections.length - 1) := by
  simp [Message.resolve_section, List.isEmpty_iff, h]

theorem resolve_section_inRange (m : Message) (i : Int)
    (h0 : 0 ≤ i) (hlt : i < (m.card.sections.length : Int)) :
    m.resolve_section (some i) = .ok i.toNat := by
  have hne : m.card.sections ≠ [] := by
    intro hnil
    rw [hnil] at hlt
    simp at hlt
    omega
  simp only [Message.resolve_section, List.isEmpty_iff]
  rw [if_neg hne]
  rw [if_neg]
  simp
  omega

theorem resolve_section_outRange (m : Message) (i : Int)
    (hne : m.card.sections ≠ []) (h : i < 0 ∨ (m.card.sections.length : Int) ≤ i) :
    m.resolve_section (some i) = .error .sectionIndex := by
  simp only [Message.resolve_section, List.isEmpty_iff]
  rw [if_neg hne]
  rw [if_pos]
  simp only [Bool.or_eq_true, decide_eq_true_eq]
  omega

theorem resolve_section_ok_lt (m : Message) (target : Option Int) (i : Nat)
    (h : m.resolve_section target = .ok i) : i < m.card.sections.length := by
  by_cases hnil : m.card.sections = []
  · rw [resolve_section_nil m target hnil] at h
    exact absurd h (by simp)
  · cases target with
    | none =>
      rw [resolve_section_none m hnil] at h
      have hi : i = m.card.sections.length - 1 := by
        simpa using h.symm
      have hpos : 0 < m.card.sections.length := List.length_pos.mpr hnil
      omega
    | some k =>
      by_cases hk : k < 0 ∨ (m.card.sections.length : Int) ≤ k
      · rw [resolve_section_outRange m k hnil hk] at h
        exact absurd h (by simp)
      · push_neg at hk
        rw [resolve_section_inRange m k hk.1 hk.2] at h
        have hi : i = k.toNat := by simpa using h.symm
        omega

theorem append_widget_err (m : Message) (target : Option Int) (w : Widget)
    (e : BuilderError) (h : m.resolve_section target = .error e) :
    m.append_widget target w = (m, some e) := by
  simp [Message.append_widget, h]

theorem append_widget_ok (m : Message) (target : Option Int) (w : Widget)
    (i : Nat) (h : m.resolve_section target = .ok i) :
    (m.append_widget target w).2 = none ∧
    widgetsAt (m.append_widget target w).1 i = (widgetsAt m i).map (fun ws => ws ++ [w]) ∧
    (∀ j : Nat, j ≠ i → widgetsAt (m.append_widget target w).1 j = widgetsAt m j) := by
  have hlt : i < m.card.sections.length := resolve_section_ok_lt m target i h
  refine ⟨by simp [Message.append_widget, h], ?_, ?_⟩
  · simp only [Message.append_widget, h, widgetsAt]
    rw [get?_modifyIdx_self _ _ _ hlt]
    cases hg : m.card.sections.get? i with
    | none => rfl
    | some s => rfl
  · intro j hj
    simp only [Message.append_widget, h, widgetsAt]
    rw [get?_modifyIdx_ne _ _ _ _ hj]

/-- Result of a chain of `add_section` calls: the list of returned indices
and the final state. -/
def addSectionsAll (m : Message) : List (Option String) → List Nat × Message
  | [] => ([], m)
  | h :: rest =>
    let r := m.add_section h
    let rr := addSectionsAll r.2 rest
    (r.1 :: rr.1, rr.2)

theorem add_section_fst (m : Message) (header : Option String) :
    (m.add_section header).1 = m.card.sections.length := by
  simp [Message.add_section]

theorem add_section_sections (m : Message) (header : Option String) :
    (m.add_section header).2.card.sections
      = m.card.sections ++ [{ header := if pyTruthy header then header else none, widgets := [] }] :=
  rfl

theorem addSectionsAll_fst (m : Message) (hs : List (Option String)) :
    (addSectionsAll m hs).1
      = (List.range hs.length).map (fun k => m.card.sections.length + k) := by
  induction hs generalizing m with
  | nil => rfl
  | cons h rest ih =>
    have hlen : (m.add_section h).2.card.sections.length = m.card.sections.length + 1 := by
      rw [add_section_sections]
      simp
    show ((m.add_section h).1 :: (addSectionsAll (m.add_section h).2 rest).1)
        = (List.range (rest.length + 1)).map (fun k => m.card.sections.length + k)
    rw [ih, add_section_fst, hlen, List.range_succ_eq_map]
    simp only [List.map_cons, List.map_map, Nat.add_zero]
    congr 1
    apply List.map_congr_left
    intro k _
    simp only [Function.comp_apply]
    omega

/-- The observable effect of a successful widget add: no error, and exactly
the widget `w` is appended at the end of section `i`'s widget list. -/
def appendsTo (m : Message) (r : Message × Option BuilderError) (i : Nat) (w : Widget) : Prop :=
  r.2 = none ∧ widgetsAt r.1 i = (widgetsAt m i).map (fun ws => ws ++ [w])

theorem appends_of_resolve (m : Message) (target : Option Int) (w : Widget) (i : Nat)
    (h : m.resolve_section target = .ok i) :
    appendsTo m (m.append_widget target w) i w :=
  ⟨(append_widget_ok m target w i h).1, (append_widget_ok m target w i h).2.1⟩

/-- A concrete message with no sections, used by witnesses. -/
def sample0 : Message := Message.init "T" "S" none

/-- A concrete message with two sections, used by witnesses. -/
def sample2 : Message :=
  { webhook_url := none
    card :=
      { header := { title := "T", subtitle := "S" }
        sections :=
          [{ header := some "A", widgets := [] },
           { header := some "B", widgets := [] }] } }

/-- C8: `add_section` never fails (it is a total function), appends exactly one
new empty section, returns the length of `sections` before the call, and over
any chain of calls from a fresh builder the returned indices are the 0-based
ordinals `0, 1, 2, ...`. -/
theorem C8_add_section_returns_prior_length (m : Message) (header : Option String)
    (title subtitle : String) (hs : List (Option String)) :
    (m.add_section header).1 = m.card.sections.length ∧
    (m.add_section header).2.card.sections.length = m.card.sections.length + 1 ∧
    (m.add_section header).2.card.sections.take m.card.sections.length = m.card.sections ∧
    widgetsAt (m.add_section header).2 m.card.sections.length = some [] ∧
    (addSectionsAll (Message.init title subtitle none) hs).1 = List.range hs.length := by
  refine ⟨add_section_fst m header, ?_, ?_, ?_, ?_⟩
  · rw [add_section_sections]
    simp
  · rw [add_section_sections]
    exact List.take_left _ _
  · unfold widgetsAt
    rw [add_section_sections, List.get?_eq_getElem?, List.getElem?_concat_length]
    rfl
  · rw [addSectionsAll_fst]
    simp [Message.init]

/-- C10: a falsy `header` argument (`""` like `None`) leaves the appended
section without a `header` key, indistinguishable from a section created with
no header; a non-empty header is stored under the `header` key. -/
theorem C10_falsy_header_omitted (m : Message) (s : String) (hne : s ≠ "") :
    (m.add_section (some "")).2.card.sections
      = m.card.sections ++ [{ header := none, widgets := [] }] ∧
    m.add_section (some "") = m.add_section none ∧
    (m.add_section (some s)).2.card.sections
      = m.card.sections ++ [{ header := some s, widgets := [] }] := by
  have hsne : s.isEmpty = false := by
    rw [← Bool.not_eq_true, String.isEmpty_iff]
    exact hne
  refine ⟨?_, rfl, ?_⟩
  · rw [add_section_sections]
    rfl
  · rw [add_section_sections]
    simp [pyTruthy, hsne]

theorem C10_witness :
    (sample0.add_section (some "")).2.card.sections = [{ header := none, widgets := [] }] ∧
    sample0.add_section (some "") = sample0.add_section none ∧
    (sample0.add_section (some "Summary")).2.card.sections
      = [{ header := some "Summary", widgets := [] }] := by
  have h := C10_falsy_header_omitted sample0 "Summary" (by decide)
  simpa [sample0, Message.init] using h

/-- C5: a falsy `url` (absent or empty) makes `add_button` fail with the
missing-url error before any other check, for every combination of the other
arguments (including an out-of-range section index and an empty card), and
returns the state unchanged. -/
theorem C5_missing_url_checked_first (m : Message) (text image_url name : Option String)
    (target : Option Int) :
    m.add_button text none image_url name target = (m, some .missingUrl) ∧
    m.add_button text (some "") image_url name target = (m, some .missingUrl) := by
  have hemp : ("" : String).isEmpty = true := by decide
  constructor <;> simp [Message.add_button, pyTruthy, hemp]

/-- C2 counterexample: the payload returned by `_prepare_msg` is not a
snapshot. Its single card is `self.card` itself, so after one `add_section`
the payload returned before the mutation reads back differently from the
snapshot taken at call time. -/
theorem C2_counterexample :
    Message.observe_payload ((Message.init "t" "s" none).add_section none).2
      ≠ (Message.init "t" "s" none).prepare_msg := by
  decide

/-- C2 amended: `build()` is a pure function of the current state and repeated
calls with no intervening mutation agree, but the returned payload is a live
view of `self.card`: after any `add_section`, every previously returned
payload reads back as the payload of the mutated state, never as the payload
of the state at call time. -/
theorem C2_payload_is_live_view (m : Message) (header : Option String) :
    Message.observe_payload (m.add_section header).2
      = (m.add_section header).2.prepare_msg ∧
    Message.observe_payload (m.add_section header).2 ≠ m.prepare_msg := by
  refine ⟨rfl, ?_⟩
  intro hEq
  have hc : (m.add_section header).2.card = m.card := by
    have h2 := congrArg Payload.cards hEq
    simpa [Message.observe_payload, Message.prepare_msg] using h2
  have hs := congrArg Card.sections hc
  rw [add_section_sections] at hs
  have hlen := congrArg List.length hs
  simp at hlen

/-- C1: with at least one section, every widget-adding operation called with
`section=None` appends its widget to the last section (index `len - 1`), and
called with the explicit index `section=0` appends to the first section
(index `0`): the explicit `0` is never treated as unset. -/
theorem C1_none_is_last_and_zero_is_first (m : Message) (hm : m.card.sections ≠ [])
    (text url alt_text dtext content : String)
    (top icon bottom bt bu si ei ocu img nm : Option String) (multiline : Bool)
    (t u : String) (ht : t.isEmpty = false) (hu : u.isEmpty = false) :
    appendsTo m (m.add_text text none) (m.card.sections.length - 1) (.textParagraph text) ∧
    appendsTo m (m.add_text text (some 0)) 0 (.textParagraph text) ∧
    appendsTo m (m.add_image url alt_text none) (m.card.sections.length - 1)
      (.image url alt_text) ∧
    appendsTo m (m.add_image url alt_text (some 0)) 0 (.image url alt_text) ∧
    appendsTo m (m.add_divider none) (m.card.sections.length - 1) .divider ∧
    appendsTo m (m.add_divider (some 0)) 0 .divider ∧
    appendsTo m (m.add_key_value top content icon bottom bt bu none multiline)
      (m.card.sections.length - 1)
      (.keyValue (buildKeyValue top content icon bottom bt bu multiline)) ∧
    appendsTo m (m.add_key_value top content icon bottom bt bu (some 0) multiline) 0
      (.keyValue (buildKeyValue top content icon bottom bt bu multiline)) ∧
    appendsTo m (m.add_decorated_text dtext si ei ocu none) (m.card.sections.length - 1)
      (.decoratedText (buildDecorated dtext si ei ocu)) ∧
    appendsTo m (m.add_decorated_text dtext si ei ocu (some 0)) 0
      (.decoratedText (buildDecorated dtext si ei ocu)) ∧
    appendsTo m (m.add_button (some t) (some u) img nm none) (m.card.sections.length - 1)
      (.buttons [.textButton { text := t, onClick := { openLink := { url := u } } }]) ∧
    appendsTo m (m.add_button (some t) (some u) img nm (some 0)) 0
      (.buttons [.textButton { text := t, onClick := { openLink := { url := u } } }]) := by
  have hpos : 0 < m.card.sections.length := List.length_pos.mpr hm
  have h1 : m.resolve_section none = .ok (m.card.sections.length - 1) :=
    resolve_section_none m hm
  have h0 : m.resolve_section (some 0) = .ok 0 := by
    have h := resolve_section_inRange m 0 (by omega) (by exact_mod_cast hpos)
    simpa using h
  have hput : pyTruthy (some t) = true := by simp [pyTruthy, ht]
  have hpuu : pyTruthy (some u) = true := by simp [pyTruthy, hu]
  refine ⟨appends_of_resolve m none _ _ h1, appends_of_resolve m (some 0) _ _ h0,
    appends_of_resolve m none _ _ h1, appends_of_resolve m (some 0) _ _ h0,
    appends_of_resolve m none _ _ h1, appends_of_resolve m (some 0) _ _ h0,
    appends_of_resolve m none _ _ h1, appends_of_resolve m (some 0) _ _ h0,
    appends_of_resolve m none _ _ h1, appends_of_resolve m (some 0) _ _ h0, ?_, ?_⟩
  · simp only [Message.add_button, hpuu, hput, Bool.not_true, Bool.false_eq_true,
      if_false, if_true, Option.getD_some]
    exact appends_of_resolve m none _ _ h1
  · simp only [Message.add_button, hpuu, hput, Bool.not_true, Bool.false_eq_true,
      if_false, if_true, Option.getD_some]
    exact appends_of_resolve m (some 0) _ _ h0

theorem C1_witness :
    appendsTo sample2 (sample2.add_text "x" none) 1 (.textParagraph "x") ∧
    appendsTo sample2 (sample2.add_text "x" (some 0)) 0 (.textParagraph "x") ∧
    appendsTo sample2 (sample2.add_image "http://i" "alt" none) 1 (.image "http://i" "alt") ∧
    appendsTo sample2 (sample2.add_image "http://i" "alt" (some 0)) 0 (.image "http://i" "alt") ∧
    appendsTo sample2 (sample2.add_divider none) 1 .divider ∧
    appendsTo sample2 (sample2.add_divider (some 0)) 0 .divider ∧
    appendsTo sample2 (sample2.add_key_value none "c" none none none none none false) 1
      (.keyValue (buildKeyValue none "c" none none none none false)) ∧
    appendsTo sample2 (sample2.add_key_value none "c" none none none none (some 0) false) 0
      (.keyValue (buildKeyValue none "c" none none none none false)) ∧
    appendsTo sample2 (sample2.add_decorated_text "d" none none none none) 1
      (.decoratedText (buildDecorated "d" none none none)) ∧
    appendsTo sample2 (sample2.add_decorated_text "d" none none none (some 0)) 0
      (.decoratedText (buildDecorated "d" none none none)) ∧
    appendsTo sample2 (sample2.add_button (some "Go") (some "https://x") none none none) 1
      (.buttons [.textButton { text := "Go", onClick := { openLink := { url := "https://x" } } }]) ∧
    appendsTo sample2 (sample2.add_button (some "Go") (some "https://x") none none (some 0)) 0
      (.buttons [.textButton
        { text := "Go", onClick := { openLink := { url := "https://x" } } }]) :=
  C1_none_is_last_and_zero_is_first sample2 (by decide) "x" "http://i" "alt" "d" "c"
    none none none none none none none none none none false "Go" "https://x"
    (by decide) (by decide)

theorem append_snd_of_resolve_err (m : Message) (target : Option Int) (w : Widget)
    (e : BuilderError) (h : m.resolve_section target = .error e) :
    (m.append_widget target w).2 = some e := by
  rw [append_widget_err m target w e h]

theorem append_widget_fail (m : Message) (target : Option Int) (w : Widget) (e : BuilderError)
    (h : (m.append_widget target w).2 = some e) : (m.append_widget target w).1 = m := by
  cases hr : m.resolve_section target with
  | error e' => rw [append_widget_err m target w e' hr]
  | ok i =>
    have hnone := (append_widget_ok m target w i hr).1
    rw [hnone] at h
    exact absurd h (by simp)

theorem add_button_truthy (m : Message) (t u : String) (img nm : Option String)
    (target : Option Int) (ht : t.isEmpty = false) (hu : u.isEmpty = false) :
    m.add_button (some t) (some u) img nm target
      = m.append_widget target
          (.buttons [.textButton { text := t, onClick := { openLink := { url := u } } }]) := by
  simp [Message.add_button, pyTruthy, ht, hu]

/-- C4: with an empty sections list every widget-adding operation fails with
the no-section error whatever the section argument is; an explicit index `i`
outside `[0, len)` fails with the index error; an in-range explicit index
resolves to the `i`-th section and no operation errors on it. For
`add_button` the button arguments are taken well-formed (truthy url and
text), since its own precondition checks come first. -/
theorem C4_section_errors (m : Message) (i : Int) (target : Option Int)
    (text url alt_text dtext content : String)
    (top icon bottom bt bu si ei ocu img nm : Option String) (multiline : Bool)
    (t u : String) (ht : t.isEmpty = false) (hu : u.isEmpty = false) :
    (m.card.sections = [] →
      (m.add_text text target).2 = some .noSection ∧
      (m.add_image url alt_text target).2 = some .noSection ∧
      (m.add_divider target).2 = some .noSection ∧
      (m.add_key_value top content icon bottom bt bu target multiline).2 = some .noSection ∧
      (m.add_decorated_text dtext si ei ocu target).2 = some .noSection ∧
      (m.add_button (some t) (some u) img nm target).2 = some .noSection) ∧
    (m.card.sections ≠ [] → (i < 0 ∨ (m.card.sections.length : Int) ≤ i) →
      m.resolve_section (some i) = .error .sectionIndex ∧
      (m.add_text text (some i)).2 = some .sectionIndex ∧
      (m.add_image url alt_text (some i)).2 = some .sectionIndex ∧
      (m.add_divider (some i)).2 = some .sectionIndex ∧
      (m.add_key_value top content icon bottom bt bu (some i) multiline).2 = some .sectionIndex ∧
      (m.add_decorated_text dtext si ei ocu (some i)).2 = some .sectionIndex ∧
      (m.add_button (some t) (some u) img nm (some i)).2 = some .sectionIndex) ∧
    (0 ≤ i → i < (m.card.sections.length : Int) →
      m.resolve_section (some i) = .ok i.toNat ∧
      (m.add_text text (some i)).2 = none ∧
      (m.add_image url alt_text (some i)).2 = none ∧
      (m.add_divider (some i)).2 = none ∧
      (m.add_key_value top content icon bottom bt bu (some i) multiline).2 = none ∧
      (m.add_decorated_text dtext si ei ocu (some i)).2 = none ∧
      (m.add_button (some t) (some u) img nm (some i)).2 = none) := by
  refine ⟨?_, ?_, ?_⟩
  · intro hnil
    have hr := resolve_section_nil m target hnil
    refine ⟨append_snd_of_resolve_err m target _ _ hr, append_snd_of_resolve_err m target _ _ hr,
      append_snd_of_resolve_err m target _ _ hr, append_snd_of_resolve_err m target _ _ hr,
      append_snd_of_resolve_err m target _ _ hr, ?_⟩
    rw [add_button_truthy m t u img nm target ht hu]
    exact append_snd_of_resolve_err m target _ _ hr
  · intro hne hout
    have hr := resolve_section_outRange m i hne hout
    refine ⟨hr, append_snd_of_resolve_err m (some i) _ _ hr,
      append_snd_of_resolve_err m (some i) _ _ hr, append_snd_of_resolve_err m (some i) _ _ hr,
      append_snd_of_resolve_err m (some i) _ _ hr, append_snd_of_resolve_err m (some i) _ _ hr,
      ?_⟩
    rw [add_button_truthy m t u img nm (some i) ht hu]
    exact append_snd_of_resolve_err m (some i) _ _ hr
  · intro h0 hlt
    have hr := resolve_section_inRange m i h0 hlt
    refine ⟨hr, (append_widget_ok m (some i) _ _ hr).1, (append_widget_ok m (some i) _ _ hr).1,
      (append_widget_ok m (some i) _ _ hr).1, (append_widget_ok m (some i) _ _ hr).1,
      (append_widget_ok m (some i) _ _ hr).1, ?_⟩
    rw [add_button_truthy m t u img nm (some i) ht hu]
    exact (append_widget_ok m (some i) _ _ hr).1

theorem C4_witness :
    (sample0.add_text "x" (some 0)).2 = some .noSection ∧
    (sample0.add_button (some "Go") (some "https://x") none none none).2 = some .noSection ∧
    sample2.resolve_section (some 5) = .error .sectionIndex ∧
    (sample2.add_divider (some 5)).2 = some .sectionIndex ∧
    sample2.resolve_section (some 1) = .ok 1 ∧
    (sample2.add_text "x" (some 1)).2 = none := by
  have h0 := C4_section_errors sample0 0 (some 0) "x" "u" "a" "d" "c"
    none none none none none none none none none none false "Go" "https://x"
    (by decide) (by decide)
  have hnone := C4_section_errors sample0 0 none "x" "u" "a" "d" "c"
    none none none none none none none none none none false "Go" "https://x"
    (by decide) (by decide)
  have h5 := C4_section_errors sample2 5 none "x" "u" "a" "d" "c"
    none none none none none none none none none none false "Go" "https://x"
    (by decide) (by decide)
  have h1 := C4_section_errors sample2 1 none "x" "u" "a" "d" "c"
    none none none none none none none none none none false "Go" "https://x"
    (by decide) (by decide)
  exact ⟨(h0.1 rfl).1, (hnone.1 rfl).2.2.2.2.2,
    (h5.2.1 (by decide) (by decide)).1, (h5.2.1 (by decide) (by decide)).2.2.2.1,
    (h1.2.2 (by decide) (by decide)).1, (h1.2.2 (by decide) (by decide)).2.1⟩

/-- C7: every rejected add raises synchronously and leaves the state
unchanged: whenever a widget-adding operation reports an error, the state it
returns is exactly the input state (in the source, every raise happens before
the single mutating `append`). -/
theorem C7_rejected_add_is_atomic (m : Message) (target : Option Int)
    (text url alt_text dtext content : String)
    (top icon bottom bt bu si ei ocu btext burl bimg bname : Option String)
    (multiline : Bool) (e : BuilderError) :
    ((m.add_text text target).2 = some e → (m.add_text text target).1 = m) ∧
    ((m.add_image url alt_text target).2 = some e → (m.add_image url alt_text target).1 = m) ∧
    ((m.add_divider target).2 = some e → (m.add_divider target).1 = m) ∧
    ((m.add_key_value top content icon bottom bt bu target multiline).2 = some e →
      (m.add_key_value top content icon bottom bt bu target multiline).1 = m) ∧
    ((m.add_decorated_text dtext si ei ocu target).2 = some e →
      (m.add_decorated_text dtext si ei ocu target).1 = m) ∧
    ((m.add_button btext burl bimg bname target).2 = some e →
      (m.add_button btext burl bimg bname target).1 = m) := by
  refine ⟨fun h => append_widget_fail m target _ e h, fun h => append_widget_fail m target _ e h,
    fun h => append_widget_fail m target _ e h, fun h => append_widget_fail m target _ e h,
    fun h => append_widget_fail m target _ e h, fun h => ?_⟩
  cases hpu : pyTruthy burl with
  | false =>
    simp [Message.add_button, hpu]
  | true =>
    cases hpt : pyTruthy btext with
    | true =>
      simp only [Message.add_button, hpu, hpt, Bool.not_true, Bool.false_eq_true,
        if_false, if_true] at h ⊢
      exact append_widget_fail m target _ e h
    | false =>
      cases hpi : pyTruthy bimg with
      | true =>
        simp only [Message.add_button, hpu, hpt, hpi, Bool.not_true, Bool.false_eq_true,
          if_false, if_true] at h ⊢
        exact append_widget_fail m target _ e h
      | false =>
        simp [Message.add_button, hpu, hpt, hpi]

theorem C7_witness :
    (sample0.add_text "x" none).2 = some .noSection ∧
    (sample0.add_text "x" none).1 = sample0 ∧
    (sample2.add_button none (some "") none none none).2 = some .missingUrl ∧
    (sample2.add_button none (some "") none none none).1 = sample2 := by
  have h0 := C7_rejected_add_is_atomic sample0 none "x" "u" "a" "d" "c"
    none none none none none none none none none (some "") none none false .noSection
  have h2 := C7_rejected_add_is_atomic sample2 none "x" "u" "a" "d" "c"
    none none none none none none none none none (some "") none none false .missingUrl
  refine ⟨by decide, h0.1 (by decide), by decide, h2.2.2.2.2.2 (by decide)⟩

/-- C3: with a non-empty url and a resolvable section, `add_button` with a
truthy `text` appends one button group holding exactly one `textButton` built
from the text and the url (whatever `image_url` is, so text wins when both
are supplied); with a falsy `text` and a truthy `image_url` it appends
exactly one `imageButton` whose name defaults to `"Button"`; with neither it
fails with the missing-content error and appends nothing. -/
theorem C3_button_variants (m : Message) (target : Option Int) (i : Nat)
    (hres : m.resolve_section target = .ok i)
    (u : String) (hu : u.isEmpty = false) (text image_url name : Option String) :
    (pyTruthy text = true →
      appendsTo m (m.add_button text (some u) image_url name target) i
        (.buttons [.textButton
          { text := text.getD "", onClick := { openLink := { url := u } } }])) ∧
    (pyTruthy text = false → pyTruthy image_url = true →
      appendsTo m (m.add_button text (some u) image_url name target) i
        (.buttons [.imageButton
          { name := pyOrStr name "Button", iconUrl := image_url.getD ""
            onClick := { openLink := { url := u } } }])) ∧
    (pyTruthy text = false → pyTruthy image_url = false →
      m.add_button text (some u) image_url name target = (m, some .missingButtonContent)) := by
  have hpu : pyTruthy (some u) = true := by simp [pyTruthy, hu]
  refine ⟨?_, ?_, ?_⟩
  · intro hpt
    simp only [Message.add_button, hpu, hpt, Bool.not_true, Bool.false_eq_true,
      if_false, if_true, Option.getD_some]
    exact appends_of_resolve m target _ i hres
  · intro hpt hpi
    simp only [Message.add_button, hpu, hpt, hpi, Bool.not_true, Bool.false_eq_true,
      if_false, if_true, Option.getD_some]
    exact appends_of_resolve m target _ i hres
  · intro hpt hpi
    simp [Message.add_button, hpu, hpt, hpi]

theorem C3_witness :
    appendsTo sample2 (sample2.add_button (some "Go") (some "https://x") (some "http://i")
      (some "N") none) 1
      (.buttons [.textButton
        { text := (some "Go").getD "", onClick := { openLink := { url := "https://x" } } }]) ∧
    appendsTo sample2 (sample2.add_button none (some "https://x") (some "http://i") none none) 1
      (.buttons [.imageButton
        { name := pyOrStr none "Button", iconUrl := (some "http://i").getD ""
          onClick := { openLink := { url := "https://x" } } }]) ∧
    sample2.add_button none (some "https://x") none none none
      = (sample2, some .missingButtonContent) := by
  have hboth := C3_button_variants sample2 none 1 rfl "https://x" (by decide)
    (some "Go") (some "http://i") (some "N")
  have himg := C3_button_variants sample2 none 1 rfl "https://x" (by decide)
    none (some "http://i") none
  have hnone := C3_button_variants sample2 none 1 rfl "https://x" (by decide)
    none none none
  exact ⟨hboth.1 (by decide), himg.2.1 (by decide) (by decide),
    hnone.2.2 (by decide) (by decide)⟩

/-- C6: a successful `add_key_value` appends one keyValue widget whose
`button` key is present exactly when both `button_text` and `button_url` are
truthy — in that case a `textButton` with an open-link on the url — and is
absent, with the call still succeeding, when at most one of them is truthy. -/
theorem C6_key_value_button_both_or_neither (m : Message) (target : Option Int) (i : Nat)
    (hres : m.resolve_section target = .ok i)
    (top : Option String) (content : String)
    (icon bottom bt bu : Option String) (multiline : Bool) :
    appendsTo m (m.add_key_value top content icon bottom bt bu target multiline) i
      (.keyValue (buildKeyValue top content icon bottom bt bu multiline)) ∧
    (pyTruthy bt = true → pyTruthy bu = true →
      (buildKeyValue top content icon bottom bt bu multiline).button
        = some (.textButton
            { text := bt.getD "", onClick := { openLink := { url := bu.getD "" } } })) ∧
    ((pyTruthy bt && pyTruthy bu) = false →
      (buildKeyValue top content icon bottom bt bu multiline).button = none) := by
  refine ⟨appends_of_resolve m target _ i hres, ?_, ?_⟩
  · intro hbt hbu
    cases bt with
    | none => simp [pyTruthy] at hbt
    | some s1 =>
      cases bu with
      | none => simp [pyTruthy] at hbu
      | some s2 =>
        simp only [pyTruthy, Bool.not_eq_true'] at hbt hbu
        simp [buildKeyValue, hbt, hbu]
  · intro hfalse
    cases bt with
    | none => simp [buildKeyValue]
    | some s1 =>
      cases bu with
      | none => simp [buildKeyValue]
      | some s2 =>
        simp only [pyTruthy, Bool.and_eq_false_iff, Bool.not_eq_true'] at hfalse
        cases hfalse with
        | inl h1 => simp [buildKeyValue, h1]
        | inr h2 => simp [buildKeyValue, h2]

theorem C6_witness :
    appendsTo sample2 (sample2.add_key_value none "c" none none (some "t") none (some 0) false) 0
      (.keyValue (buildKeyValue none "c" none none (some "t") none false)) ∧
    (buildKeyValue none "c" none none (some "t") none false).button = none ∧
    (buildKeyValue none "c" none none (some "t") (some "https://u") false).button
      = some (.textButton
          { text := (some "t").getD ""
            onClick := { openLink := { url := (some "https://u").getD "" } } }) := by
  have hone := C6_key_value_button_both_or_neither sample2 (some 0) 0 rfl
    none "c" none none (some "t") none false
  have hboth := C6_key_value_button_both_or_neither sample2 (some 0) 0 rfl
    none "c" none none (some "t") (some "https://u") false
  exact ⟨hone.1, hone.2.2 (by decide), hboth.2.1 (by decide) (by decide)⟩

/-- C9: `send` resolves the webhook url by `webhook_url or self.webhook_url`:
a truthy explicit argument always wins over whatever was stored at
construction; when neither source is truthy it fails with the webhook error
for every possible transport, i.e. before (and independent of) any network
call, and it never touches the card. -/
theorem C9_webhook_resolution (m : Message) (a : Option String) (u : String)
    (hu : u.isEmpty = false) (post : String → Payload → Nat × String) :
    m.send (some u) post = .ok (post u m.prepare_msg) ∧
    (pyTruthy a = false → pyTruthy m.webhook_url = false →
      m.send a post = .error .missingWebhook) := by
  constructor
  · simp [Message.send, pyTruthy, hu]
  · intro ha hw
    cases hcase : m.webhook_url with
    | none => simp [Message.send, ha, hcase]
    | some s =>
      rw [hcase] at hw
      have hw2 : s.isEmpty = true := by simpa [pyTruthy] using hw
      simp [Message.send, ha, hcase, hw2]

theorem C9_witness :
    (Message.init "T" "S" (some "https://stored")).send (some "https://arg")
        (fun v _ => (200, v))
      = .ok (200, "https://arg") ∧
    (Message.init "T" "S" (some "")).send none (fun v _ => (200, v))
      = .error .missingWebhook := by
  have hover := C9_webhook_resolution (Message.init "T" "S" (some "https://stored"))
    none "https://arg" (by decide) (fun v _ => (200, v))
  have hmiss := C9_webhook_resolution (Message.init "T" "S" (some "")) none
    "https://arg" (by decide) (fun v _ => (200, v))
  exact ⟨hover.1, hmiss.2 (by decide) (by decide)⟩

end App
